import Mathlib

/-!
Shallow embedding of the LED / drawer-storage core of
`src/electronics_storage.py` (class `ElectronicsStorage`), together with
proofs of the behavioural properties claimed for it.

The embedding models:
* the GPIO pin map built by `setup_gpio` (an insertion-ordered association
  list mirroring the Python dict `self.LED_PINS`);
* the LED state dictionary `self.led_states` with Python dict update
  semantics (`d[k] = v` updates an existing key in place, otherwise appends);
* the operations `set_led`, `toggle_led` (route handler), `set_all_leds`
  (route handler), and the state-relevant part of `run_led_test`
  (hardware `GPIO.output` calls become an explicit write log; `time.sleep`
  calls have no state effect and are dropped);
* `load_drawer_data` / `save_drawer_data` over an abstract file state
  (JSON encoding/decoding of a record set is modelled as the identity).
-/

namespace ElectronicsStorage

/-- All 32 drawer coordinates in the order of the Python dict comprehension
`{f"{row}-{col}": False for row in range(1, 9) for col in range(1, 5)}`:
rows 1..8, columns 1..4. -/
def allCoords : List (Nat × Nat) :=
  (List.range 8).flatMap fun r => (List.range 4).map fun c => (r + 1, c + 1)

/-- The 28 coordinates of rows 1..7 in row-major order, as iterated by
`setup_gpio` and by the sweep of `run_led_test`. -/
def coords17 : List (Nat × Nat) :=
  (List.range 7).flatMap fun r => (List.range 4).map fun c => (r + 1, c + 1)

/-- The drawer id string `f"{row}-{col}"`. -/
def drawerId (rc : Nat × Nat) : String :=
  toString rc.1 ++ "-" ++ toString rc.2

/-- The fixed GPIO channel catalog `gpio_pins` of `setup_gpio`. -/
def gpio_pins : List Nat :=
  [2, 3, 4, 14, 15, 18, 17, 27, 22, 23, 24, 10, 9, 25, 11, 8,
   7, 1, 12, 16, 20, 21, 19, 26, 13, 6, 5, 0]

/-- The rows-1..7 assignment loop of `setup_gpio`: walks the coordinates
carrying `pin_index`, and while `pin_index < len(gpio_pins)` stores the next
catalog channel for the coordinate and advances the index; a coordinate
reached after the catalog is exhausted receives no entry at all. -/
def setupAssign (channels : List Nat) : List (Nat × Nat) → Nat → List (String × Option Nat)
  | [], _ => []
  | rc :: rest, i =>
    if h : i < channels.length then
      (drawerId rc, some (channels.get ⟨i, h⟩)) :: setupAssign channels rest (i + 1)
    else
      setupAssign channels rest i

/-- The second loop of `setup_gpio`: the four row-8 keys stored with value
`None` because there are not enough LEDs. -/
def row8_entries : List (String × Option Nat) :=
  (List.range 4).map fun c => (drawerId (8, c + 1), none)

/-- `setup_gpio`, parameterised by the channel catalog: the insertion-ordered
association list behind the dict `self.LED_PINS`.  Rows 1..7 are assigned in
row-major order from the catalog; the four row-8 keys follow with value
`None` (here `none`). -/
def setup_gpio (channels : List Nat) : List (String × Option Nat) :=
  setupAssign channels coords17 0 ++ row8_entries

/-- The pin map the program actually builds at startup. -/
def LED_PINS : List (String × Option Nat) :=
  setup_gpio gpio_pins

/-- The guard of `set_led`, `drawer_id in self.LED_PINS and
self.LED_PINS[drawer_id] is not None`, returned as the assigned pin when it
holds: an absent key and a key stored with `None` both yield `none`. -/
def pinOf (pins : List (String × Option Nat)) (id : String) : Option Nat :=
  match pins.lookup id with
  | some (some p) => some p
  | _ => none

/-- The LED state dictionary `self.led_states`. -/
abbrev LedStates := List (String × Bool)

/-- The initial `self.led_states`: every one of the 32 coordinates mapped to
`False`. -/
def init_led_states : LedStates :=
  allCoords.map fun rc => (drawerId rc, false)

/-- Python dict assignment `d[k] = v`: updates the existing entry in place
(preserving insertion order) when the key is present, otherwise appends the
new binding at the end. -/
def dictSet (s : LedStates) (id : String) (v : Bool) : LedStates :=
  if (s.lookup id).isSome then
    s.map fun p => if p.1 == id then (p.1, v) else p
  else
    s ++ [(id, v)]

/-- `self.led_states.get(drawer_id, False)`, the read used by `toggle_led`
(and the per-coordinate content of the `/api/status` state map). -/
def get_led_state (s : LedStates) (id : String) : Bool :=
  (s.lookup id).getD false

/-- Result of `set_led`: the updated state dictionary, the boolean return
value, and the log of `GPIO.output` hardware writes performed. -/
structure SetLedResult where
  states : LedStates
  ok : Bool
  writes : List (Nat × Bool)
  deriving DecidableEq, Repr

/-- `ElectronicsStorage.set_led`: when the coordinate has an assigned pin it
drives the pin to the requested level, records the new state and returns
`True`; otherwise it does nothing and returns `False`. -/
def set_led (pins : List (String × Option Nat)) (s : LedStates) (id : String) (v : Bool) :
    SetLedResult :=
  match pinOf pins id with
  | some p => ⟨dictSet s id v, true, [(p, v)]⟩
  | none => ⟨s, false, []⟩

/-- Result of the `toggle_led` route handler: the updated state dictionary,
the success flag of the JSON response, the `state` value reported on success,
and the hardware writes performed. -/
structure ToggleResult where
  states : LedStates
  success : Bool
  state : Bool
  writes : List (Nat × Bool)
  deriving DecidableEq, Repr

/-- The `/api/led/<drawer_id>/toggle` handler `toggle_led`: reads the current
state with `self.led_states.get(drawer_id, False)`, inverts it, and calls
`set_led`; on failure it reports an invalid-drawer-id error and the state
dictionary is untouched. -/
def toggle_led (pins : List (String × Option Nat)) (s : LedStates) (id : String) :
    ToggleResult :=
  let current := get_led_state s id
  let new_state := !current
  let r := set_led pins s id new_state
  ⟨r.states, r.ok, new_state, r.writes⟩

/-- The loop shared by `set_all_leds` and the all-on / all-off phases of
`run_led_test`: iterates the entries of the pin dict in insertion order and
calls `set_led` on every key whose stored pin is not `None`. -/
def set_all_fold (pins iter : List (String × Option Nat)) (s : LedStates) (v : Bool) :
    LedStates :=
  iter.foldl (fun acc e =>
    match e.2 with
    | some _ => (set_led pins acc e.1 v).states
    | none => acc) s

/-- Python's `state.lower()` on the ASCII route parameter, written as a
structural per-character map (the library `String.toLower` computes the same
characters through a non-structural internal loop). -/
def lowerStr (s : String) : String :=
  String.mk (s.data.map Char.toLower)

/-- The `/api/led/all/<state>` handler `set_all_leds`: parses the requested
level as `state.lower() == 'on'` and applies it to every key of
`self.LED_PINS` whose pin is not `None`; returns the applied level. -/
def set_all_leds (pins : List (String × Option Nat)) (s : LedStates) (state : String) :
    LedStates × Bool :=
  let led_state := lowerStr state == "on"
  (set_all_fold pins pins s led_state, led_state)

/-- The sweep phase of `run_led_test`: for each coordinate of rows 1..7 in
row-major order whose pin is assigned, set it on and then off again. -/
def sweep_fold (pins : List (String × Option Nat)) (l : List (Nat × Nat)) (s : LedStates) :
    LedStates :=
  l.foldl (fun acc rc =>
    if (pinOf pins (drawerId rc)).isSome then
      (set_led pins (set_led pins acc (drawerId rc) true).states (drawerId rc) false).states
    else acc) s

/-- The state effect of the `test_sequence` body of `run_led_test`, with the
`time.sleep` holds dropped: all LEDs off, the row-major sweep of rows 1..7
(on then off per assigned coordinate), all LEDs on, all LEDs off. -/
def test_sequence (pins : List (String × Option Nat)) (s : LedStates) : LedStates :=
  let s1 := set_all_fold pins pins s false
  let s2 := sweep_fold pins coords17 s1
  let s3 := set_all_fold pins pins s2 true
  set_all_fold pins pins s3 false

/-- One drawer record as stored in the persisted JSON file. -/
structure DrawerRecord where
  id : String
  name : String
  items : List String
  notes : String
  row : Nat
  col : Nat
  deriving DecidableEq, Repr

/-- The persisted record set: a mapping from drawer-id string to record. -/
abbrev DrawerData := List (String × DrawerRecord)

/-- The default record set generated by `load_drawer_data` when no data can
be read: every one of the 32 coordinates with empty name, items and notes. -/
def default_data : DrawerData :=
  allCoords.map fun rc => (drawerId rc, ⟨drawerId rc, "", [], "", rc.1, rc.2⟩)

/-- `load_drawer_data` over an abstract file state: `file = none` models a
missing data file (`self.data_file.exists()` false), `readOk = false` a file
whose open/parse raises; in both cases the default record set is generated.
JSON decoding of a previously saved record set is modelled as the identity. -/
def load_drawer_data (file : Option DrawerData) (readOk : Bool) : DrawerData :=
  match file with
  | some d => if readOk then d else default_data
  | none => default_data

/-- The successful-write path of `save_drawer_data`: the file now holds the
saved record set and the method returns `True`. -/
def save_drawer_data (data : DrawerData) : Option DrawerData × Bool :=
  (some data, true)

/-- The LED-mutating API operations of the program. -/
inductive Op where
  | toggle (id : String)
  | setAll (state : String)
  | ledTest

/-- The effect of one API operation on the LED state dictionary. -/
def applyOp (pins : List (String × Option Nat)) (s : LedStates) : Op → LedStates
  | .toggle id => (toggle_led pins s id).states
  | .setAll st => (set_all_leds pins s st).1
  | .ledTest => test_sequence pins s

/-- The LED state dictionaries reachable from startup via the program's
API operations. -/
inductive Reachable (pins : List (String × Option Nat)) : LedStates → Prop where
  | init : Reachable pins init_led_states
  | step : ∀ s o, Reachable pins s → Reachable pins (applyOp pins s o)

/-! ### Lookup lemmas for the dictionary operations -/

/-- Lookup after the in-place update branch of a Python dict assignment:
keys are preserved, and only the value at the assigned key changes. -/
lemma lookup_mapUpd (s : LedStates) (id : String) (v : Bool) (k : String) :
    (s.map fun p => if p.1 == id then (p.1, v) else p).lookup k
      = (s.lookup k).map fun w => if k == id then v else w := by
  have hfun : (fun p : String × Bool => if p.1 == id then (p.1, v) else p)
      = fun p => (p.1, if p.1 == id then v else p.2) := by
    funext p
    by_cases h : (p.1 == id) = true <;> simp [h]
  rw [hfun]
  induction s with
  | nil => simp
  | cons p rest ih =>
    obtain ⟨a, b⟩ := p
    simp only [List.map_cons, List.lookup_cons]
    cases hka : k == a with
    | true =>
      have hk : k = a := by simpa using hka
      subst hk
      simp
    | false =>
      simpa using ih

/-- Lookup after a Python dict assignment `d[k] = v`: the assigned key now
reads `v` and every other key is unchanged. -/
lemma lookup_dictSet (s : LedStates) (id : String) (v : Bool) (k : String) :
    (dictSet s id v).lookup k = if k = id then some v else s.lookup k := by
  unfold dictSet
  by_cases hp : (s.lookup id).isSome
  · rw [if_pos hp, lookup_mapUpd]
    by_cases hk : k = id
    · subst hk
      obtain ⟨w, hw⟩ := Option.isSome_iff_exists.mp hp
      simp [hw]
    · have hbk : (k == id) = false := by simpa using hk
      cases hkk : s.lookup k <;> simp [hbk, hk, hkk]
  · rw [if_neg hp, List.lookup_append]
    have hnone : s.lookup id = none := Option.not_isSome_iff_eq_none.mp hp
    by_cases hk : k = id
    · subst hk
      simp [hnone, List.lookup_cons]
    · have hbk : (k == id) = false := by simpa using hk
      cases hkk : s.lookup k <;> simp [hk, hbk, hkk, List.lookup_cons]

/-- A key whose pin-dict lookup yields an assigned pin passes the guard. -/
lemma pinOf_eq_some (pins : List (String × Option Nat)) (id : String) (p : Nat)
    (h : pins.lookup id = some (some p)) : pinOf pins id = some p := by
  unfold pinOf
  rw [h]

/-- `set_led` on a coordinate with no assigned pin: no state change, failure
return, no hardware write. -/
lemma set_led_unassigned (pins : List (String × Option Nat)) (s : LedStates) (id : String)
    (v : Bool) (h : pinOf pins id = none) :
    set_led pins s id v = ⟨s, false, []⟩ := by
  unfold set_led
  rw [h]

/-- `set_led` on a coordinate with assigned pin `p`: the state entry is set,
`True` is returned and the pin is driven to the requested level. -/
lemma set_led_assigned (pins : List (String × Option Nat)) (s : LedStates) (id : String)
    (v : Bool) (p : Nat) (h : pinOf pins id = some p) :
    set_led pins s id v = ⟨dictSet s id v, true, [(p, v)]⟩ := by
  unfold set_led
  rw [h]

/-- Lookup in the state dictionary after a `set_led` call. -/
lemma set_led_states_lookup (pins : List (String × Option Nat)) (s : LedStates) (id : String)
    (v : Bool) (k : String) :
    (set_led pins s id v).states.lookup k
      = if (pinOf pins id).isSome ∧ k = id then some v else s.lookup k := by
  cases h : pinOf pins id with
  | none => simp [set_led, h]
  | some p => simp [set_led, h, lookup_dictSet]

/-- Unfolding lemma for one step of the `set_all_leds` loop. -/
lemma set_all_fold_cons (pins : List (String × Option Nat)) (e : String × Option Nat)
    (rest : List (String × Option Nat)) (s : LedStates) (v : Bool) :
    set_all_fold pins (e :: rest) s v
      = set_all_fold pins rest
          (match e.2 with
           | some _ => (set_led pins s e.1 v).states
           | none => s) v := rfl

/-- A pin-dict entry with an assigned pin makes the membership test of the
`set_all_leds` loop succeed for its key. -/
lemma any_of_lookup_some (pins : List (String × Option Nat)) (id : String) (p : Nat)
    (h : pins.lookup id = some (some p)) :
    pins.any (fun e => e.1 == id && e.2.isSome) = true := by
  induction pins with
  | nil => simp at h
  | cons e rest ih =>
    obtain ⟨a, pn⟩ := e
    rw [List.lookup_cons] at h
    cases hae : id == a with
    | true =>
      have ha : id = a := by simpa using hae
      subst ha
      rw [hae] at h
      simp only [Option.some.injEq] at h
      subst h
      simp
    | false =>
      rw [hae] at h
      have := ih h
      simp [this]

/-- Under a duplicate-free pin dict, no entry of the loop can target a key
whose guard `pinOf` fails. -/
lemma any_eq_false_of_pinOf_none (pins : List (String × Option Nat))
    (hcons : ∀ e ∈ pins, pins.lookup e.1 = some e.2) (k : String)
    (h : pinOf pins k = none) :
    pins.any (fun e => e.1 == k && e.2.isSome) = false := by
  cases hany : pins.any (fun e => e.1 == k && e.2.isSome) with
  | false => rfl
  | true =>
    exfalso
    rw [List.any_eq_true] at hany
    obtain ⟨e, hmem, hpred⟩ := hany
    obtain ⟨a, pn⟩ := e
    simp only [Bool.and_eq_true, beq_iff_eq] at hpred
    obtain ⟨ha, hsome⟩ := hpred
    obtain ⟨p, rfl⟩ := Option.isSome_iff_exists.mp hsome
    have hlk := hcons (a, some p) hmem
    simp only at hlk
    rw [ha] at hlk
    have hpin := pinOf_eq_some pins k p hlk
    rw [h] at hpin
    exact Option.noConfusion hpin

/-- Lookup in the state dictionary after the `set_all_leds` loop over the
pin-dict entries `iter`: keys carried by an assigned entry of `iter` read
the applied level, all other keys are unchanged.  The hypothesis says each
iterated entry agrees with what `pins` looks up for its key, which holds for
the duplicate-free dict the program builds. -/
lemma set_all_fold_lookup (pins : List (String × Option Nat)) (v : Bool) (k : String) :
    ∀ (iter : List (String × Option Nat)) (s : LedStates),
      (∀ e ∈ iter, pins.lookup e.1 = some e.2) →
      (set_all_fold pins iter s v).lookup k
        = if iter.any (fun e => e.1 == k && e.2.isSome) then some v else s.lookup k := by
  intro iter
  induction iter with
  | nil =>
    intro s _
    simp [set_all_fold]
  | cons e rest ih =>
    intro s hcons
    have he : pins.lookup e.1 = some e.2 := hcons e (List.mem_cons_self _ _)
    have hrest : ∀ x ∈ rest, pins.lookup x.1 = some x.2 :=
      fun x hx => hcons x (List.mem_cons_of_mem _ hx)
    obtain ⟨a, pn⟩ := e
    cases pn with
    | none =>
      rw [set_all_fold_cons]
      simp only [List.any_cons, Option.isSome_none, Bool.and_false, Bool.false_or]
      exact ih _ hrest
    | some p =>
      have hpin : pinOf pins a = some p := by simp [pinOf, he]
      rw [set_all_fold_cons]
      simp only
      rw [set_led_assigned pins s a v p hpin, ih _ hrest]
      by_cases hk : k = a
      · subst hk
        simp [lookup_dictSet]
      · have hbk : (a == k) = false := by
          simp only [beq_eq_false_iff_ne, ne_eq]
          exact fun hh => hk hh.symm
        rw [List.any_cons, hbk, Bool.false_and, Bool.false_or, lookup_dictSet, if_neg hk]

/-- Unfolding lemma for one step of the sweep loop of `run_led_test`. -/
lemma sweep_fold_cons (pins : List (String × Option Nat)) (rc : Nat × Nat)
    (rest : List (Nat × Nat)) (s : LedStates) :
    sweep_fold pins (rc :: rest) s
      = sweep_fold pins rest
          (if (pinOf pins (drawerId rc)).isSome then
             (set_led pins (set_led pins s (drawerId rc) true).states
               (drawerId rc) false).states
           else s) := rfl

/-- Lookup in the state dictionary after the sweep of `run_led_test`: every
swept assigned coordinate ends off (it was set on and then off again), all
other keys are unchanged. -/
lemma sweep_fold_lookup (pins : List (String × Option Nat)) (k : String) :
    ∀ (l : List (Nat × Nat)) (s : LedStates),
      (sweep_fold pins l s).lookup k
        = if l.any (fun rc => drawerId rc == k && (pinOf pins (drawerId rc)).isSome)
          then some false else s.lookup k := by
  intro l
  induction l with
  | nil =>
    intro s
    simp [sweep_fold]
  | cons rc rest ih =>
    intro s
    cases hpin : pinOf pins (drawerId rc) with
    | none =>
      rw [sweep_fold_cons]
      simp only [hpin, Option.isSome_none, Bool.false_eq_true, if_false, List.any_cons,
        Bool.and_false, Bool.false_or]
      exact ih _
    | some p =>
      rw [sweep_fold_cons]
      simp only [hpin, Option.isSome_some, if_true, List.any_cons, Bool.and_true]
      rw [ih _, set_led_states_lookup, set_led_states_lookup]
      by_cases hk : k = drawerId rc
      · subst hk
        simp [hpin]
      · have hbk : (drawerId rc == k) = false := by
          simp only [beq_eq_false_iff_ne, ne_eq]
          exact fun hh => hk hh.symm
        rw [hbk, Bool.false_or]
        simp [hk]

/-! ### Preservation lemmas for the API operations -/

/-- Consistency of a pin dict with its own lookups: holds for the
duplicate-free dict built by `setup_gpio` from the program's catalog. -/
def PinsConsistent (pins : List (String × Option Nat)) : Prop :=
  ∀ e ∈ pins, pins.lookup e.1 = some e.2

/-- Every API operation leaves the state entry of a coordinate that fails
the pin guard untouched. -/
lemma applyOp_lookup_unassigned (pins : List (String × Option Nat))
    (hcons : PinsConsistent pins) (s : LedStates) (o : Op) (k : String)
    (h : pinOf pins k = none) :
    (applyOp pins s o).lookup k = s.lookup k := by
  have hany := any_eq_false_of_pinOf_none pins hcons k h
  cases o with
  | toggle id =>
    show (set_led pins s id (!get_led_state s id)).states.lookup k = s.lookup k
    rw [set_led_states_lookup]
    by_cases hk : k = id
    · subst hk
      simp [h]
    · simp [hk]
  | setAll st =>
    show (set_all_fold pins pins s _).lookup k = s.lookup k
    rw [set_all_fold_lookup pins _ k pins s hcons, hany]
    simp
  | ledTest =>
    show (set_all_fold pins pins (set_all_fold pins pins
        (sweep_fold pins coords17 (set_all_fold pins pins s false)) true) false).lookup k
      = s.lookup k
    rw [set_all_fold_lookup pins _ k pins _ hcons, hany,
      set_all_fold_lookup pins _ k pins _ hcons, hany,
      sweep_fold_lookup, set_all_fold_lookup pins _ k pins _ hcons, hany]
    have hsw : (coords17.any fun rc =>
        drawerId rc == k && (pinOf pins (drawerId rc)).isSome) = false := by
      cases hc : coords17.any fun rc =>
          drawerId rc == k && (pinOf pins (drawerId rc)).isSome with
      | false => rfl
      | true =>
        exfalso
        rw [List.any_eq_true] at hc
        obtain ⟨rc, _, hpred⟩ := hc
        simp only [Bool.and_eq_true, beq_iff_eq] at hpred
        obtain ⟨hid, hsome⟩ := hpred
        rw [hid, h] at hsome
        exact Bool.noConfusion hsome
    rw [hsw]
    simp

/-- Every API operation preserves definedness of every state entry. -/
lemma applyOp_lookup_isSome (pins : List (String × Option Nat))
    (hcons : PinsConsistent pins) (s : LedStates) (o : Op) (k : String)
    (h : (s.lookup k).isSome) :
    ((applyOp pins s o).lookup k).isSome := by
  cases o with
  | toggle id =>
    show ((set_led pins s id (!get_led_state s id)).states.lookup k).isSome
    rw [set_led_states_lookup]
    split
    · rfl
    · exact h
  | setAll st =>
    show ((set_all_fold pins pins s _).lookup k).isSome
    rw [set_all_fold_lookup pins _ k pins s hcons]
    split
    · rfl
    · exact h
  | ledTest =>
    show ((set_all_fold pins pins (set_all_fold pins pins
        (sweep_fold pins coords17 (set_all_fold pins pins s false)) true) false).lookup k).isSome
    rw [set_all_fold_lookup pins _ k pins _ hcons]
    split
    · rfl
    rw [set_all_fold_lookup pins _ k pins _ hcons]
    split
    · rfl
    rw [sweep_fold_lookup]
    split
    · rfl
    rw [set_all_fold_lookup pins _ k pins _ hcons]
    split
    · rfl
    · exact h

/-! ### Claim theorems -/

/-- C2: the pin map built at startup assigns exactly one line (a defined
pin) to each of the 28 coordinates of rows 1..7, the 28 assigned pins are
pairwise distinct, and every row-8 coordinate is assigned no line. -/
theorem C2_pinmap_bijection :
    coords17.length = 28
    ∧ (∀ rc ∈ coords17, (pinOf LED_PINS (drawerId rc)).isSome)
    ∧ (coords17.map fun rc => pinOf LED_PINS (drawerId rc)).Nodup
    ∧ (∀ rc ∈ allCoords, rc.1 = 8 → pinOf LED_PINS (drawerId rc) = none) := by
  decide

/-- Concrete instance of C2: drawer 1-1 is assigned and drawer 8-1 is not. -/
theorem C2_pinmap_bijection_witness :
    (pinOf LED_PINS (drawerId (1, 1))).isSome
    ∧ pinOf LED_PINS (drawerId (8, 1)) = none :=
  ⟨C2_pinmap_bijection.2.1 (1, 1) (by decide),
   C2_pinmap_bijection.2.2.2 (8, 1) (by decide) rfl⟩

/-- C1: for every coordinate with no assigned line — in particular every
row-8 coordinate — `set_led` and `toggle_led` signal the not-assigned
failure, perform no hardware write, and leave every LED-state entry
unchanged. -/
theorem C1_not_assigned_error :
    (∀ rc ∈ allCoords, rc.1 = 8 → pinOf LED_PINS (drawerId rc) = none)
    ∧ ∀ (s : LedStates) (id : String) (v : Bool), pinOf LED_PINS id = none →
        set_led LED_PINS s id v = ⟨s, false, []⟩
        ∧ toggle_led LED_PINS s id = ⟨s, false, !get_led_state s id, []⟩ := by
  constructor
  · decide
  · intro s id v h
    refine ⟨set_led_unassigned _ _ _ _ h, ?_⟩
    simp only [toggle_led]
    rw [set_led_unassigned _ _ _ _ h]

/-- Concrete instance of C1 at the row-8 drawer 8-2 and the startup state. -/
theorem C1_not_assigned_error_witness :
    pinOf LED_PINS (drawerId (8, 2)) = none
    ∧ set_led LED_PINS init_led_states "8-2" true = ⟨init_led_states, false, []⟩
    ∧ toggle_led LED_PINS init_led_states "8-2" = ⟨init_led_states, false, true, []⟩ := by
  refine ⟨C1_not_assigned_error.1 (8, 2) (by decide) rfl,
    (C1_not_assigned_error.2 init_led_states "8-2" true (by decide)).1, ?_⟩
  have h := (C1_not_assigned_error.2 init_led_states "8-2" true (by decide)).2
  have hg : (!get_led_state init_led_states "8-2") = true := by decide
  rw [h, hg]

/-- C10: toggling an identifier that is not a key of the pin map — such as
the non-coordinate string "foo" — fails, performs no write, and leaves the
LED-state dictionary completely unchanged: in particular no entry is created
for the unknown identifier. -/
theorem C10_unknown_id_toggle_fails :
    ∀ (s : LedStates) (id : String), LED_PINS.lookup id = none →
      toggle_led LED_PINS s id = ⟨s, false, !get_led_state s id, []⟩ := by
  intro s id h
  have hpin : pinOf LED_PINS id = none := by
    unfold pinOf
    rw [h]
  simp only [toggle_led]
  rw [set_led_unassigned _ _ _ _ hpin]

/-- Concrete instance of C10 at the unknown identifier "foo". -/
theorem C10_unknown_id_toggle_fails_witness :
    LED_PINS.lookup "foo" = none
    ∧ toggle_led LED_PINS init_led_states "foo" = ⟨init_led_states, false, true, []⟩ := by
  refine ⟨by decide, ?_⟩
  have h := C10_unknown_id_toggle_fails init_led_states "foo" (by decide)
  have hg : (!get_led_state init_led_states "foo") = true := by decide
  rw [h, hg]

/-- C3: on an assigned coordinate present in the state dictionary, toggle
reports and stores the negation of the current entry, and two consecutive
toggles with no intervening mutation restore the original dictionary at
every key. -/
theorem C3_toggle_involution :
    ∀ (s : LedStates) (id : String), (pinOf LED_PINS id).isSome →
      (s.lookup id).isSome →
      (toggle_led LED_PINS s id).success = true
      ∧ (toggle_led LED_PINS s id).state = !get_led_state s id
      ∧ get_led_state (toggle_led LED_PINS s id).states id = !get_led_state s id
      ∧ ∀ k, (toggle_led LED_PINS (toggle_led LED_PINS s id).states id).states.lookup k
          = s.lookup k := by
  intro s id hpin hs
  obtain ⟨p, hp⟩ := Option.isSome_iff_exists.mp hpin
  obtain ⟨b, hb⟩ := Option.isSome_iff_exists.mp hs
  have hget1 : get_led_state s id = b := by
    unfold get_led_state
    rw [hb]
    rfl
  have hstates1 : (toggle_led LED_PINS s id).states = dictSet s id (!b) := by
    simp only [toggle_led]
    rw [set_led_assigned _ _ _ _ _ hp, hget1]
  have hget2 : get_led_state (dictSet s id (!b)) id = !b := by
    unfold get_led_state
    rw [lookup_dictSet, if_pos rfl]
    rfl
  refine ⟨?_, rfl, ?_, ?_⟩
  · simp only [toggle_led]
    rw [set_led_assigned _ _ _ _ _ hp]
  · rw [hstates1, hget1, hget2]
  · intro k
    rw [hstates1]
    have hstates2 : (toggle_led LED_PINS (dictSet s id (!b)) id).states
        = dictSet (dictSet s id (!b)) id b := by
      simp only [toggle_led]
      rw [set_led_assigned _ _ _ _ _ hp, hget2, Bool.not_not]
    rw [hstates2, lookup_dictSet]
    by_cases hk : k = id
    · rw [if_pos hk, hk, hb]
    · rw [if_neg hk, lookup_dictSet, if_neg hk]

/-- Concrete instance of C3: toggling drawer 1-1 from startup reports true,
stores true, and a second toggle restores the startup dictionary. -/
theorem C3_toggle_involution_witness :
    (toggle_led LED_PINS init_led_states "1-1").success = true
    ∧ (toggle_led LED_PINS init_led_states "1-1").state = true
    ∧ get_led_state (toggle_led LED_PINS init_led_states "1-1").states "1-1" = true
    ∧ (toggle_led LED_PINS (toggle_led LED_PINS init_led_states "1-1").states
        "1-1").states.lookup "2-3" = init_led_states.lookup "2-3" := by
  have h := C3_toggle_involution init_led_states "1-1" (by decide) (by decide)
  refine ⟨h.1, ?_, ?_, h.2.2.2 "2-3"⟩
  · rw [h.2.1]
    decide
  · rw [h.2.2.1]
    decide

/-- C6: a successful save followed by a load returns exactly the saved
record set, and a load with no stored file or a failing read returns the
default record set: all 32 coordinates with empty name, items and notes. -/
theorem C6_save_load_round_trip :
    (∀ data : DrawerData, load_drawer_data (save_drawer_data data).1 true = data)
    ∧ (∀ file, load_drawer_data file false = default_data)
    ∧ load_drawer_data none true = default_data
    ∧ default_data.length = 32
    ∧ default_data.map Prod.fst = allCoords.map drawerId
    ∧ (default_data.all fun e =>
        e.2.name == "" && e.2.items.isEmpty && e.2.notes == "") = true := by
  refine ⟨fun data => rfl, fun file => ?_, rfl, by decide, by decide, by decide⟩
  cases file <;> rfl

/-- Unfolding lemma for the state component of `set_all_leds`. -/
lemma set_all_leds_fst (pins : List (String × Option Nat)) (s : LedStates) (state : String) :
    (set_all_leds pins s state).1 = set_all_fold pins pins s (lowerStr state == "on") := rfl

/-- Unfolding lemma for the diagnostic sequence. -/
lemma test_sequence_eq (pins : List (String × Option Nat)) (s : LedStates) :
    test_sequence pins s
      = set_all_fold pins pins
          (set_all_fold pins pins
            (sweep_fold pins coords17 (set_all_fold pins pins s false)) true) false := rfl

/-- Converse direction of the pin guard: a passing guard exposes the stored
dict entry. -/
lemma lookup_eq_of_pinOf_eq_some (pins : List (String × Option Nat)) (id : String) (p : Nat)
    (h : pinOf pins id = some p) : pins.lookup id = some (some p) := by
  cases hl : pins.lookup id with
  | none => simp [pinOf, hl] at h
  | some o =>
    cases o with
    | none => simp [pinOf, hl] at h
    | some q =>
      have hq : q = p := by simpa [pinOf, hl] using h
      rw [hq]

/-- The pin dict built from the program's catalog is consistent with its own
lookups (it has no duplicate keys). -/
lemma LED_PINS_consistent : PinsConsistent LED_PINS := by
  unfold PinsConsistent
  decide

/-- C5: `set_all_leds` applies the parsed level to every assigned coordinate
and silently skips unassigned coordinates, whose entries stay untouched: any
state, "on" then read gives true on assigned coordinates, "off" gives false,
and unassigned entries are exactly as before. -/
theorem C5_set_all_leds :
    ∀ (s : LedStates) (id : String),
      ((pinOf LED_PINS id).isSome →
        get_led_state (set_all_leds LED_PINS s "on").1 id = true
        ∧ get_led_state (set_all_leds LED_PINS s "off").1 id = false)
      ∧ (pinOf LED_PINS id = none →
        (set_all_leds LED_PINS s "on").1.lookup id = s.lookup id
        ∧ (set_all_leds LED_PINS s "off").1.lookup id = s.lookup id) := by
  have hon : (lowerStr "on" == "on") = true := by decide
  have hoff : (lowerStr "off" == "on") = false := by decide
  intro s id
  constructor
  · intro hpin
    obtain ⟨p, hp⟩ := Option.isSome_iff_exists.mp hpin
    have hany := any_of_lookup_some LED_PINS id p (lookup_eq_of_pinOf_eq_some _ _ _ hp)
    constructor
    · unfold get_led_state
      rw [set_all_leds_fst, hon,
        set_all_fold_lookup LED_PINS true id LED_PINS s LED_PINS_consistent, hany]
      rfl
    · unfold get_led_state
      rw [set_all_leds_fst, hoff,
        set_all_fold_lookup LED_PINS false id LED_PINS s LED_PINS_consistent, hany]
      rfl
  · intro hnone
    have hany := any_eq_false_of_pinOf_none LED_PINS LED_PINS_consistent id hnone
    constructor
    · rw [set_all_leds_fst, hon,
        set_all_fold_lookup LED_PINS true id LED_PINS s LED_PINS_consistent, hany]
      rfl
    · rw [set_all_leds_fst, hoff,
        set_all_fold_lookup LED_PINS false id LED_PINS s LED_PINS_consistent, hany]
      rfl

/-- Concrete instance of C5 from the startup state: drawer 1-1 follows the
applied level, drawer 8-1 is untouched. -/
theorem C5_set_all_leds_witness :
    get_led_state (set_all_leds LED_PINS init_led_states "on").1 "1-1" = true
    ∧ get_led_state (set_all_leds LED_PINS init_led_states "off").1 "1-1" = false
    ∧ (set_all_leds LED_PINS init_led_states "on").1.lookup "8-1"
        = init_led_states.lookup "8-1" :=
  ⟨((C5_set_all_leds init_led_states "1-1").1 (by decide)).1,
   ((C5_set_all_leds init_led_states "1-1").1 (by decide)).2,
   ((C5_set_all_leds init_led_states "8-1").2 (by decide)).1⟩

/-- C4: the diagnostic sequence of `run_led_test` — all off, a row-major
on/off sweep of rows 1..7, all on, all off — started from the all-off
startup state ends with every assigned coordinate reading off. -/
theorem C4_led_test_ends_all_off :
    ∀ id : String, (pinOf LED_PINS id).isSome →
      get_led_state (test_sequence LED_PINS init_led_states) id = false := by
  intro id hpin
  obtain ⟨p, hp⟩ := Option.isSome_iff_exists.mp hpin
  have hany := any_of_lookup_some LED_PINS id p (lookup_eq_of_pinOf_eq_some _ _ _ hp)
  unfold get_led_state
  rw [test_sequence_eq,
    set_all_fold_lookup LED_PINS false id LED_PINS _ LED_PINS_consistent, hany]
  rfl

/-- Concrete instance of C4 at drawer 1-1. -/
theorem C4_led_test_ends_all_off_witness :
    get_led_state (test_sequence LED_PINS init_led_states) "1-1" = false :=
  C4_led_test_ends_all_off "1-1" (by decide)

/-- C7: every LED-state dictionary reachable through the program's API
operations keeps a defined boolean entry for each of the 32 coordinates,
keeps every row-8 (unassigned) entry at false, and therefore a read of an
unassigned coordinate never fails and always yields false. -/
theorem C7_led_state_invariant :
    ∀ s, Reachable LED_PINS s →
      (∀ rc ∈ allCoords, (s.lookup (drawerId rc)).isSome)
      ∧ (∀ rc ∈ allCoords, rc.1 = 8 →
          s.lookup (drawerId rc) = some false
          ∧ get_led_state s (drawerId rc) = false) := by
  have hrow8 : ∀ rc ∈ allCoords, rc.1 = 8 → pinOf LED_PINS (drawerId rc) = none := by
    decide
  intro s hreach
  induction hreach with
  | init =>
    constructor
    · decide
    · decide
  | step s o hr ih =>
    obtain ⟨ih1, ih2⟩ := ih
    constructor
    · intro rc hm
      exact applyOp_lookup_isSome LED_PINS LED_PINS_consistent s o _ (ih1 rc hm)
    · intro rc hm h8
      have hun := applyOp_lookup_unassigned LED_PINS LED_PINS_consistent s o
        (drawerId rc) (hrow8 rc hm h8)
      have hfalse := (ih2 rc hm h8).1
      refine ⟨by rw [hun, hfalse], ?_⟩
      unfold get_led_state
      rw [hun, hfalse]
      rfl

/-- Concrete instance of C7 at the startup state: drawer 3-2 is defined and
drawer 8-4 reads false. -/
theorem C7_led_state_invariant_witness :
    (init_led_states.lookup (drawerId (3, 2))).isSome
    ∧ init_led_states.lookup (drawerId (8, 4)) = some false :=
  ⟨(C7_led_state_invariant init_led_states Reachable.init).1 (3, 2) (by decide),
   ((C7_led_state_invariant init_led_states Reachable.init).2 (8, 4) (by decide) rfl).1⟩

/-! ### Characterisation of the pin-map build for an arbitrary catalog -/

/-- The assignment loop pairs each remaining coordinate with the next
catalog channel: it is the zip of the coordinates with the catalog tail. -/
lemma setupAssign_eq_zip (channels : List Nat) :
    ∀ (coords : List (Nat × Nat)) (i : Nat),
      setupAssign channels coords i
        = (coords.zip (channels.drop i)).map fun q => (drawerId q.1, some q.2) := by
  intro coords
  induction coords with
  | nil =>
    intro i
    simp [setupAssign]
  | cons rc rest ih =>
    intro i
    by_cases h : i < channels.length
    · rw [setupAssign, dif_pos h, ih (i + 1), List.drop_eq_getElem_cons h,
        List.zip_cons_cons, List.map_cons]
      rfl
    · have hd : channels.drop i = [] := List.drop_eq_nil_of_le (Nat.le_of_not_lt h)
      rw [setupAssign, dif_neg h, ih i, hd, List.zip_nil_right]
      simp

/-- The first components of a zip are the prefix of the left list cut at the
length of the right list. -/
lemma map_fst_zip_eq_take : ∀ (l₁ : List (Nat × Nat)) (l₂ : List Nat),
    (l₁.zip l₂).map Prod.fst = l₁.take l₂.length
  | [], _ => by simp
  | _ :: _, [] => by simp
  | a :: l₁, b :: l₂ => by
    rw [List.zip_cons_cons, List.map_cons, List.length_cons, List.take_succ_cons,
      map_fst_zip_eq_take l₁ l₂]

/-- A key absent from the key column of an association list looks up to
nothing. -/
lemma lookup_eq_none_of_not_mem_keys (l : List (String × Option Nat)) (k : String)
    (h : k ∉ l.map Prod.fst) : l.lookup k = none := by
  rw [List.lookup_eq_none_iff]
  intro p hp
  simp only [bne_iff_ne, ne_eq]
  intro he
  exact h (he ▸ List.mem_map_of_mem Prod.fst hp)

/-- In an association list with duplicate-free keys, a member entry is what
lookup returns for its key. -/
lemma lookup_eq_some_of_mem_of_nodup (l : List (String × Option Nat)) (k : String)
    (v : Option Nat) (hmem : (k, v) ∈ l) (hnd : (l.map Prod.fst).Nodup) :
    l.lookup k = some v := by
  induction l with
  | nil => cases hmem
  | cons e rest ih =>
    obtain ⟨a, b⟩ := e
    rw [List.map_cons] at hnd
    rcases List.mem_cons.mp hmem with heq | hmem2
    · cases heq
      rw [List.lookup_cons, beq_self_eq_true]
    · have hka : (k == a) = false := by
        rw [beq_eq_false_iff_ne]
        intro he
        subst he
        exact (List.nodup_cons.mp hnd).1 (List.mem_map.mpr ⟨(k, v), hmem2, rfl⟩)
      rw [List.lookup_cons, hka]
      exact ih hmem2 (List.nodup_cons.mp hnd).2

/-- In a duplicate-free list, the element at position `i` does not occur in
a prefix that stops before `i`. -/
lemma get_not_mem_take (l : List String) (hnd : l.Nodup) (i : Nat) (h : i < l.length)
    (m : Nat) (hm : m ≤ i) : l.get ⟨i, h⟩ ∉ l.take m := by
  intro hmem
  have hnd2 : (l.take m ++ l.drop m).Nodup := by
    rw [List.take_append_drop]
    exact hnd
  have hdisj := List.disjoint_of_nodup_append hnd2
  have hlt : i - m < (l.drop m).length := by
    rw [List.length_drop]
    omega
  have hidx : m + (i - m) = i := by omega
  have hgd : (l.drop m).get ⟨i - m, hlt⟩ = l.get ⟨i, h⟩ := by
    rw [List.get_eq_getElem, List.get_eq_getElem, List.getElem_drop]
    simp only [hidx]
  exact hdisj hmem (hgd ▸ List.get_mem (l.drop m) (i - m) hlt)

/-- When the left part of an appended association list misses a key, the pin
guard only consults the right part. -/
lemma pinOf_append_left_none (A B : List (String × Option Nat)) (k : String)
    (h : A.lookup k = none) : pinOf (A ++ B) k = pinOf B k := by
  unfold pinOf
  rw [List.lookup_append, h, Option.none_or]

/-- The rows-1..7 drawer ids are pairwise distinct. -/
lemma coords17_ids_nodup : (coords17.map drawerId).Nodup := by decide

/-- No rows-1..7 drawer id is a key of the row-8 entries. -/
lemma row8_pinOf_coords17 : ∀ rc ∈ coords17, pinOf row8_entries (drawerId rc) = none := by
  decide

/-- The row-8 entries assign no pin to the row-8 drawer ids. -/
lemma row8_pinOf_row8 : ∀ rc ∈ allCoords, rc.1 = 8 →
    pinOf row8_entries (drawerId rc) = none := by
  decide

/-- A rows-1..7 drawer id never equals a row-8 drawer id. -/
lemma coords17_ids_ne_row8 : ∀ rc2 ∈ coords17, ∀ rc ∈ allCoords, rc.1 = 8 →
    drawerId rc2 ≠ drawerId rc := by
  decide

/-- The key column of the assignment loop output: the rows-1..7 ids cut at
the catalog length. -/
lemma setupAssign_keys (channels : List Nat) :
    (setupAssign channels coords17 0).map Prod.fst
      = (coords17.map drawerId).take channels.length := by
  rw [setupAssign_eq_zip, List.drop_zero, List.map_map]
  have hcomp : (Prod.fst ∘ fun q : (Nat × Nat) × Nat => (drawerId q.1, some q.2))
      = drawerId ∘ Prod.fst := rfl
  rw [hcomp, ← List.map_map, map_fst_zip_eq_take, List.map_take]

/-- C8: for every ordered channel catalog, the built pin map assigns the
next unused channel to the rows-1..7 coordinates in row-major order (the
coordinate at row-major index i gets catalog entry i); coordinates past the
end of the catalog and all of row 8 are unassigned, and `set_led` /
`toggle_led` on any unassigned coordinate of such a map fail with no write
and no state mutation. -/
theorem C8_build_from_catalog (channels : List Nat) :
    (∀ (i : Nat) (h : i < coords17.length),
      pinOf (setup_gpio channels) (drawerId (coords17.get ⟨i, h⟩)) = channels[i]?)
    ∧ (∀ rc ∈ allCoords, rc.1 = 8 → pinOf (setup_gpio channels) (drawerId rc) = none)
    ∧ ∀ (s : LedStates) (id : String) (v : Bool),
        pinOf (setup_gpio channels) id = none →
        set_led (setup_gpio channels) s id v = ⟨s, false, []⟩
        ∧ toggle_led (setup_gpio channels) s id = ⟨s, false, !get_led_state s id, []⟩ := by
  have hkeys := setupAssign_keys channels
  refine ⟨?_, ?_, ?_⟩
  · intro i h
    by_cases hi : i < channels.length
    · have hzip : (coords17.zip channels)[i]? = some (coords17.get ⟨i, h⟩, channels.get ⟨i, hi⟩) := by
        rw [List.getElem?_zip_eq_some]
        exact ⟨by rw [List.getElem?_eq_getElem h]; rfl,
               by rw [List.getElem?_eq_getElem hi]; rfl⟩
      have hmem : (drawerId (coords17.get ⟨i, h⟩), some (channels.get ⟨i, hi⟩))
          ∈ setupAssign channels coords17 0 := by
        rw [setupAssign_eq_zip, List.drop_zero]
        exact List.mem_map_of_mem _ (List.getElem?_mem hzip)
      have hnd : ((setupAssign channels coords17 0).map Prod.fst).Nodup := by
        rw [hkeys]
        exact (List.take_sublist _ _).nodup coords17_ids_nodup
      have hlkA := lookup_eq_some_of_mem_of_nodup _ _ _ hmem hnd
      unfold setup_gpio pinOf
      rw [List.lookup_append, hlkA, Option.or_some, List.getElem?_eq_getElem hi]
      rfl
    · have hkey : drawerId (coords17.get ⟨i, h⟩)
          = (coords17.map drawerId).get ⟨i, by simpa using h⟩ := by
        rw [List.get_eq_getElem, List.get_eq_getElem, List.getElem_map]
      have hnotA : drawerId (coords17.get ⟨i, h⟩)
          ∉ (setupAssign channels coords17 0).map Prod.fst := by
        rw [hkeys, hkey]
        exact get_not_mem_take _ coords17_ids_nodup _ _ _ (Nat.le_of_not_lt hi)
      unfold setup_gpio
      rw [pinOf_append_left_none _ _ _ (lookup_eq_none_of_not_mem_keys _ _ hnotA),
        row8_pinOf_coords17 _ (List.get_mem coords17 i h),
        List.getElem?_eq_none (Nat.le_of_not_lt hi)]
  · intro rc hm h8
    have hnotA : drawerId rc ∉ (setupAssign channels coords17 0).map Prod.fst := by
      rw [hkeys]
      intro hmem
      obtain ⟨rc2, hrc2, heq⟩ := List.mem_map.mp (List.mem_of_mem_take hmem)
      exact coords17_ids_ne_row8 rc2 hrc2 rc hm h8 heq
    unfold setup_gpio
    rw [pinOf_append_left_none _ _ _ (lookup_eq_none_of_not_mem_keys _ _ hnotA)]
    exact row8_pinOf_row8 rc hm h8
  · intro s id v hnone
    refine ⟨set_led_unassigned _ _ _ _ hnone, ?_⟩
    simp only [toggle_led]
    rw [set_led_unassigned _ _ _ _ hnone]

/-- Concrete instance of C8 with the short catalog [5, 7]: the first two
coordinates get channels 5 and 7, the third is unassigned, row 8 is
unassigned, and set_led on the unassigned drawer 1-3 fails without mutation. -/
theorem C8_build_from_catalog_witness :
    pinOf (setup_gpio [5, 7]) (drawerId (coords17.get ⟨0, by decide⟩)) = some 5
    ∧ pinOf (setup_gpio [5, 7]) (drawerId (coords17.get ⟨2, by decide⟩)) = none
    ∧ pinOf (setup_gpio [5, 7]) (drawerId (8, 1)) = none
    ∧ set_led (setup_gpio [5, 7]) init_led_states "1-3" true
        = ⟨init_led_states, false, []⟩ := by
  refine ⟨?_, ?_, ?_, ?_⟩
  · exact ((C8_build_from_catalog [5, 7]).1 0 (by decide)).trans rfl
  · exact ((C8_build_from_catalog [5, 7]).1 2 (by decide)).trans rfl
  · exact (C8_build_from_catalog [5, 7]).2.1 (8, 1) (by decide) rfl
  · exact ((C8_build_from_catalog [5, 7]).2.2 init_led_states "1-3" true (by decide)).1

end ElectronicsStorage
